import Mathlib

/-!
Verification of the natural-language specification of `trm-sla` against its
source (`src/trm/sla/sla.cc`), a Python/C binding over the slalib routines.

The binding code under `src/` is embedded directly.  The slalib routines it
calls (`slaDtt`, `slaRcc`, `slaEpv`, `slaI2o`, ... ) are not part of the
repository; they are treated as external capabilities and appear as function
parameters (`TdbExt`, `AmassExt`), except where a claim depends on their
contract, in which case they are modelled from the specification and marked
as such (`slaPa`, `slaCldjStatus`).

C doubles are idealised as real numbers; C ints as integers.
-/

open Real

/-! ## Vector and matrix primitives (`trm_vec3.h` usage in the binding) -/

/-- A 3-vector of reals, mirroring `Subs::Vec3`. -/
structure Vec3 where
  x : ℝ
  y : ℝ
  z : ℝ

/-- Componentwise sum, mirroring `Vec3::operator+=`. -/
def v3add (a b : Vec3) : Vec3 :=
  ⟨a.x + b.x, a.y + b.y, a.z + b.z⟩

/-- Scalar multiple, mirroring `Vec3::operator*=`. -/
def v3smul (k : ℝ) (a : Vec3) : Vec3 :=
  ⟨k * a.x, k * a.y, k * a.z⟩

/-- Dot product, mirroring `dot(Vec3, Vec3)`. -/
def v3dot (a b : Vec3) : ℝ :=
  a.x * b.x + a.y * b.y + a.z * b.z

/-- The zero vector. -/
def v3zero : Vec3 := ⟨0, 0, 0⟩

/-- A 3x3 matrix given by rows, for the precession-nutation rotation. -/
structure Mat3 where
  r1 : Vec3
  r2 : Vec3
  r3 : Vec3

/-- `slaDimxv m v`: apply the inverse (= transpose, for a rotation) of `m`
to `v`, as used at lines 124-125 of `sla.cc`. -/
def dimxv (m : Mat3) (v : Vec3) : Vec3 :=
  ⟨m.r1.x * v.x + m.r2.x * v.y + m.r3.x * v.z,
   m.r1.y * v.x + m.r2.y * v.y + m.r3.y * v.z,
   m.r1.z * v.x + m.r2.z * v.y + m.r3.z * v.z⟩

/-- The identity rotation. -/
def mat3id : Mat3 := ⟨⟨1, 0, 0⟩, ⟨0, 1, 0⟩, ⟨0, 0, 1⟩⟩

/-! ## Physical constants

`Constants::PI`, `Constants::TWOPI` are mathematical constants; the others
come from the external constants header. -/

/-- `Constants::PI`. -/
noncomputable def Constants.PI : ℝ := Real.pi

/-- `Constants::TWOPI`. -/
noncomputable def Constants.TWOPI : ℝ := 2 * Real.pi

/-- Modelled from the spec: the days-to-seconds conversion
(`Constants::DAY`, from the external constants header), seconds per day. -/
def Constants.DAY : ℝ := 86400

/-- Modelled from the spec: the speed of light (`Constants::C`, from the
external constants header), metres per second. -/
def Constants.C : ℝ := 299792458

/-- Modelled from the spec: the AU-to-metres conversion (`Constants::AU`,
from the external constants header), metres per astronomical unit. -/
def Constants.AU : ℝ := 149597870000

/-- The degree-to-radian factor `CFAC = Constants::PI/180.` defined locally
in both `sla_utc2tdb` (line 93) and `sla_amass` (line 208). -/
noncomputable def CFAC : ℝ := Constants.PI / 180

/-- C-style truncation toward zero, for `int(utc)` at line 106. -/
noncomputable def ctrunc (t : ℝ) : ℝ :=
  if 0 ≤ t then (⌊t⌋ : ℤ) else (⌈t⌉ : ℤ)

/-! ## Range validation in `sla_utc2tdb` (lines 71-90) -/

/-- The four `PyErr_SetString` branches of `sla_utc2tdb`. -/
inductive Utc2tdbErr where
  | lonErr
  | latErr
  | raErr
  | decErr
deriving DecidableEq

/-- The exact error message raised by each branch of `sla_utc2tdb`. -/
def Utc2tdbErr.msg : Utc2tdbErr → String
  | .lonErr => "sla.utc2tdb: longituge out of range -360 to +360"
  | .latErr => "sla.utc2tdb: latitude out of range -90 to +90"
  | .raErr => "sla.utc2tdb: ra out of range 0 to 24"
  | .decErr => "sla.utc2tdb: declination out of range -90 to +90"

/-- The input-validation cascade of `sla_utc2tdb` (lines 72-90), run before
any computation; `none` means all checks pass. -/
noncomputable def utc2tdbError (longitude latitude ra dec : ℝ) : Option Utc2tdbErr :=
  if longitude < -360 ∨ longitude > 360 then some .lonErr
  else if latitude < -90 ∨ latitude > 90 then some .latErr
  else if ra < 0 ∨ ra > 24 then some .raErr
  else if dec < -90 ∨ dec > 90 then some .decErr
  else none

/-! ## Range validation in `sla_amass` (lines 181-205) -/

/-- The five `PyErr_SetString` branches of `sla_amass`; `waveErr` is the
branch at lines 202-205 guarding the wavelength. -/
inductive AmassErr where
  | lonErr
  | latErr
  | raErr
  | decErr
  | waveErr
deriving DecidableEq

/-- The exact error message raised by each branch of `sla_amass`.  Note that
the wavelength branch (line 203) reuses the declination message verbatim. -/
def AmassErr.msg : AmassErr → String
  | .lonErr => "sla.amass: longituge out of range -360 to +360"
  | .latErr => "sla.amass: latitude out of range -90 to +90"
  | .raErr => "sla.amass: ra out of range 0 to 24"
  | .decErr => "sla.amass: declination out of range -90 to +90"
  | .waveErr => "sla.amass: declination out of range -90 to +90"

/-- The input-validation cascade of `sla_amass` (lines 182-205).  The
wavelength condition embeds the C expression `wave <= 0. || dec > wave >
1000000.` literally: in C, `dec > wave` evaluates to the int 0 or 1, which
is then compared with `1000000.`. -/
noncomputable def amassError (longitude latitude ra dec wave : ℝ) : Option AmassErr :=
  if longitude < -360 ∨ longitude > 360 then some .lonErr
  else if latitude < -90 ∨ latitude > 90 then some .latErr
  else if ra < 0 ∨ ra > 24 then some .raErr
  else if dec < -90 ∨ dec > 90 then some .decErr
  else if wave ≤ 0 ∨ (if dec > wave then (1 : ℝ) else 0) > 1000000 then some .waveErr
  else none

/-! ## Calendar to MJD (`sla_cldj`, lines 32-55)

`slaCldj` itself is a slalib routine, not in the repository; its status
codes and domain are modelled from the specification (section 4.1). -/

/-- Modelled from the spec: proleptic Gregorian leap-year rule. -/
def isGregLeap (y : ℤ) : Bool :=
  (y % 4 == 0 && y % 100 != 0) || y % 400 == 0

/-- Modelled from the spec: number of days of month `m` in year `y`,
accounting for leap years. -/
def monthLength (y m : ℤ) : ℤ :=
  if m = 2 then (if isGregLeap y then 29 else 28)
  else if m = 4 ∨ m = 6 ∨ m = 9 ∨ m = 11 then 30
  else 31

/-- Modelled from the spec: the Modified Julian Date of a valid proleptic
Gregorian calendar date (days, at 0h), via the Julian day number. -/
def gregorianMJD (y m d : ℤ) : ℤ :=
  d + (153 * (m + 12 * ((14 - m) / 12) - 3) + 2) / 5
    + 365 * (y + 4800 - (14 - m) / 12)
    + (y + 4800 - (14 - m) / 12) / 4
    - (y + 4800 - (14 - m) / 12) / 100
    + (y + 4800 - (14 - m) / 12) / 400
    - 32045 - 2400001

/-- Modelled from the spec: the status code of `slaCldj` — 1 for a year
below the supported minimum of the Gregorian algorithm's domain, 2 for a
month outside 1-12, 3 for a day invalid for that year/month, 0 for a valid
date. -/
def slaCldjStatus (y m d : ℤ) : ℤ :=
  if y < -4699 then 1
  else if m < 1 ∨ 12 < m then 2
  else if d < 1 ∨ monthLength y m < d then 3
  else 0

/-- The outcome of `sla_cldj`: either the MJD, or one of the three
`InvalidDate` errors, each carrying the offending field exactly as the
messages at lines 44, 47 and 50 do. -/
inductive CldjResult where
  | ok (mjd : ℤ)
  | badYear (y : ℤ)
  | badMonth (m : ℤ)
  | badDay (d : ℤ)
deriving DecidableEq

/-- The wrapper `sla_cldj` (lines 32-55): dispatch on the status returned
by `slaCldj`. -/
def sla_cldj (year month day : ℤ) : CldjResult :=
  if slaCldjStatus year month day = 1 then .badYear year
  else if slaCldjStatus year month day = 2 then .badMonth month
  else if slaCldjStatus year month day = 3 then .badDay day
  else .ok (gregorianMJD year month day)

/-! ## `sla_utc2tdb` (lines 60-166)

The slalib routines consumed by the binding are bundled as an explicit
parameter; the binding's own arithmetic is embedded literally. -/

/-- The four vectors returned by `slaEpv` (line 111): heliocentric and
barycentric position and velocity of the Earth. -/
structure EpvOut where
  ph : Vec3
  vh : Vec3
  pb : Vec3
  vb : Vec3

/-- The external slalib routines consumed by `sla_utc2tdb`, with the
argument shapes of their call sites. -/
structure TdbExt where
  slaDtt : ℝ → ℝ
  slaRcc : ℝ → ℝ → ℝ → ℝ → ℝ → ℝ
  slaGeoc : ℝ → ℝ → ℝ × ℝ
  slaEpv : ℝ → EpvOut
  slaGmst : ℝ → ℝ
  slaEqeqx : ℝ → ℝ
  slaPvobs : ℝ → ℝ → ℝ → Vec3 × Vec3
  slaPneqx : ℝ → Mat3
  slaEpj : ℝ → ℝ
  slaPm : ℝ → ℝ → ℝ → ℝ → ℝ → ℝ → ℝ → ℝ → ℝ × ℝ
  slaDcs2c : ℝ → ℝ → Vec3

/-- The quantities computed by the success path of `sla_utc2tdb`: the seven
returned values (line 164) together with the intermediate target unit
vector and observatory position/velocity vectors (in metres, metres/s)
through which the light-time corrections are formed. -/
structure Utc2TdbTrace where
  tt : ℝ
  tdb : ℝ
  targ : Vec3
  hpos : Vec3
  bpos : Vec3
  hvel : Vec3
  bvel : Vec3
  btdb : ℝ
  hutc : ℝ
  htdb : ℝ
  vhel : ℝ
  vbar : ℝ

/-- The computation chain of `sla_utc2tdb` after validation (lines 92-164),
embedded statement by statement. -/
noncomputable def utc2tdbCompute (E : TdbExt)
    (utc longitude latitude height ra dec pmra pmdec epoch parallax rv : ℝ) :
    Utc2TdbTrace :=
  let latr := CFAC * latitude
  let longr := CFAC * longitude
  let rar := CFAC * 15 * ra
  let decr := CFAC * dec
  let pmrar := CFAC * pmra / 3600
  let pmdecr := CFAC * pmdec / 3600
  let uv := E.slaGeoc latr height
  let u := uv.1 * (Constants.AU / 1000)
  let v := uv.2 * (Constants.AU / 1000)
  let tt := utc + E.slaDtt utc / Constants.DAY
  let tdb := tt + E.slaRcc tt (utc - ctrunc utc) (-longr) u v / Constants.DAY
  let ep := E.slaEpv tdb
  let last := E.slaGmst tdb + longr + E.slaEqeqx tdb
  let pv := E.slaPvobs latr height last
  let rnpb := E.slaPneqx tdb
  let padd := dimxv rnpb pv.1
  let vadd := dimxv rnpb pv.2
  let hpos := v3smul Constants.AU (v3add ep.ph padd)
  let hvel := v3smul (Constants.AU / Constants.DAY) (v3add ep.vh vadd)
  let bpos := v3smul Constants.AU (v3add ep.pb padd)
  let bvel := v3smul (Constants.AU / Constants.DAY) (v3add ep.vb vadd)
  let nepoch := E.slaEpj utc
  let rd := E.slaPm rar decr pmrar pmdecr parallax rv epoch nepoch
  let targ := E.slaDcs2c rd.1 rd.2
  let hcorr := v3dot targ hpos / Constants.C / Constants.DAY
  let bcorr := v3dot targ bpos / Constants.C / Constants.DAY
  { tt := tt, tdb := tdb, targ := targ, hpos := hpos, bpos := bpos,
    hvel := hvel, bvel := bvel,
    btdb := tdb + bcorr, hutc := utc + hcorr, htdb := tdb + hcorr,
    vhel := -(v3dot targ hvel) / 1000, vbar := -(v3dot targ bvel) / 1000 }

/-- The public operation `sla_utc2tdb`: validation first (lines 71-90),
then the computation chain. -/
noncomputable def sla_utc2tdb (E : TdbExt)
    (utc longitude latitude height ra dec pmra pmdec epoch parallax rv : ℝ) :
    Except Utc2tdbErr Utc2TdbTrace :=
  match utc2tdbError longitude latitude ra dec with
  | some e => .error e
  | none => .ok (utc2tdbCompute E utc longitude latitude height ra dec pmra pmdec epoch parallax rv)

/-! ## `sla_amass` (lines 170-254) -/

/-- The five observed angles returned by `slaI2o` (lines 231-232), all in
radians: azimuth, zenith distance, hour angle, declination, right
ascension. -/
structure I2oOut where
  azob : ℝ
  zdob : ℝ
  haob : ℝ
  decob : ℝ
  raob : ℝ

/-- The external slalib routines consumed by `sla_amass`, with the argument
shapes of their call sites (`slaI2o` takes the fourteen inputs of line
231). -/
structure AmassExt where
  slaEpj : ℝ → ℝ
  slaPm : ℝ → ℝ → ℝ → ℝ → ℝ → ℝ → ℝ → ℝ → ℝ × ℝ
  slaI2o : ℝ → ℝ → ℝ → ℝ → ℝ → ℝ → ℝ → ℝ → ℝ → ℝ → ℝ → ℝ → ℝ → ℝ → I2oOut
  slaRefcoq : ℝ → ℝ → ℝ → ℝ → ℝ × ℝ
  slaAirmas : ℝ → ℝ

/-- Modelled from the spec: the slalib spherical-trigonometry parallactic
angle `slaPa` (section 4.9 and glossary), with hour angle, declination and
site latitude in radians; the result is the four-quadrant arctangent of
`cos(phi)*sin(h)` against `sin(phi)*cos(d) - cos(phi)*sin(d)*cos(h)`,
lying in the interval (-pi, pi] (0 in the degenerate zero/zero case). -/
noncomputable def slaPa (ha dec phi : ℝ) : ℝ :=
  Complex.arg ⟨Real.sin phi * Real.cos dec - Real.cos phi * Real.sin dec * Real.cos ha,
    Real.cos phi * Real.sin ha⟩

/-- The normalisation applied to the parallactic angle at line 248:
`paob = paob > 0. ? paob : 360.+paob`. -/
noncomputable def paNorm (p : ℝ) : ℝ :=
  if p > 0 then p else 360 + p

/-- Lines 247-248 of `sla_amass`: the parallactic angle as returned, given
the three arguments the binding passes to `slaPa`: the already-converted
hour angle, the space-motion-corrected declination (radians) and the site
latitude (radians). -/
noncomputable def amassPaOut (ha dec phi : ℝ) : ℝ :=
  paNorm (slaPa ha dec phi / CFAC)

/-- The quantities computed by the success path of `sla_amass`: the six
returned values (line 252) together with the observed zenith distance and
the refraction coefficients through which the refraction displacement is
formed. -/
structure AmassTrace where
  zdob : ℝ
  refa : ℝ
  refb : ℝ
  airmass : ℝ
  altob : ℝ
  az : ℝ
  ha : ℝ
  paob : ℝ
  delz : ℝ

/-- The computation chain of `sla_amass` after validation (lines 207-252),
embedded statement by statement.  The fixed atmospheric conditions and
Earth-orientation corrections of lines 221-227 appear literally at the
`slaI2o` and `slaRefcoq` call sites. -/
noncomputable def amassCompute (E : AmassExt)
    (utc longitude latitude height ra dec wave pmra pmdec epoch parallax rv : ℝ) :
    AmassTrace :=
  let latr := CFAC * latitude
  let longr := CFAC * longitude
  let rar := CFAC * 15 * ra
  let decr := CFAC * dec
  let pmrar := CFAC * pmra / 3600
  let pmdecr := CFAC * pmdec / 3600
  let nepoch := E.slaEpj utc
  let rd := E.slaPm rar decr pmrar pmdecr parallax rv epoch nepoch
  let o := E.slaI2o rd.1 rd.2 utc 0 longr latr height 0 0 285 1013.25 0.2 wave 0.0065
  let rc := E.slaRefcoq 285 1013.25 0.2 wave
  let tanz := Real.tan o.zdob
  let delz := tanz * (rc.1 + rc.2 * tanz * tanz) / CFAC
  let haConv := o.haob * (24 / Constants.TWOPI)
  let altob := 90 - o.zdob / CFAC
  let am := E.slaAirmas o.zdob
  let azdeg := o.azob / CFAC
  let paob := amassPaOut haConv rd.2 latr
  { zdob := o.zdob, refa := rc.1, refb := rc.2, airmass := am,
    altob := altob, az := azdeg, ha := haConv, paob := paob, delz := delz }

/-- The public operation `sla_amass`: validation first (lines 181-205),
then the computation chain. -/
noncomputable def sla_amass (E : AmassExt)
    (utc longitude latitude height ra dec wave pmra pmdec epoch parallax rv : ℝ) :
    Except AmassErr AmassTrace :=
  match amassError longitude latitude ra dec wave with
  | some e => .error e
  | none => .ok (amassCompute E utc longitude latitude height ra dec wave pmra pmdec epoch parallax rv)

/-! ## Concrete instantiations of the external capabilities, used to
exercise the operations at specific inputs. -/

/-- Externals that return zeros everywhere (and the identity for the
space-motion update and the precession-nutation rotation). -/
noncomputable def trivialTdbExt : TdbExt where
  slaDtt := fun _ => 0
  slaRcc := fun _ _ _ _ _ => 0
  slaGeoc := fun _ _ => (0, 0)
  slaEpv := fun _ => ⟨v3zero, v3zero, v3zero, v3zero⟩
  slaGmst := fun _ => 0
  slaEqeqx := fun _ => 0
  slaPvobs := fun _ _ _ => (v3zero, v3zero)
  slaPneqx := fun _ => mat3id
  slaEpj := fun _ => 0
  slaPm := fun r d _ _ _ _ _ _ => (r, d)
  slaDcs2c := fun _ _ => v3zero

/-- As `trivialTdbExt`, but with a strictly positive TT-UTC offset of 64
seconds. -/
noncomputable def dttPosExt : TdbExt where
  slaDtt := fun _ => 64
  slaRcc := fun _ _ _ _ _ => 0
  slaGeoc := fun _ _ => (0, 0)
  slaEpv := fun _ => ⟨v3zero, v3zero, v3zero, v3zero⟩
  slaGmst := fun _ => 0
  slaEqeqx := fun _ => 0
  slaPvobs := fun _ _ _ => (v3zero, v3zero)
  slaPneqx := fun _ => mat3id
  slaEpj := fun _ => 0
  slaPm := fun r d _ _ _ _ _ _ => (r, d)
  slaDcs2c := fun _ _ => v3zero

/-- Amass externals that return zeros everywhere (and the identity for the
space-motion update). -/
noncomputable def trivialAmassExt : AmassExt where
  slaEpj := fun _ => 0
  slaPm := fun r d _ _ _ _ _ _ => (r, d)
  slaI2o := fun _ _ _ _ _ _ _ _ _ _ _ _ _ _ => ⟨0, 0, 0, 0, 0⟩
  slaRefcoq := fun _ _ _ _ => (0, 0)
  slaAirmas := fun _ => 0

/-- Amass externals whose topocentric transform reports an observed hour
angle of pi/2 radians (six hours east of the meridian). -/
noncomputable def haPiHalfExt : AmassExt where
  slaEpj := fun _ => 0
  slaPm := fun r d _ _ _ _ _ _ => (r, d)
  slaI2o := fun _ _ _ _ _ _ _ _ _ _ _ _ _ _ => ⟨0, 0, Real.pi / 2, 0, 0⟩
  slaRefcoq := fun _ _ _ _ => (0, 0)
  slaAirmas := fun _ => 0

/-! ## Helper lemmas about the modelled `slaCldj` status -/

lemma slaCldjStatus_eq_one (y m d : ℤ) :
    slaCldjStatus y m d = 1 ↔ y < -4699 := by
  unfold slaCldjStatus
  split_ifs <;> norm_num <;> omega

lemma slaCldjStatus_eq_two (y m d : ℤ) :
    slaCldjStatus y m d = 2 ↔ -4699 ≤ y ∧ (m < 1 ∨ 12 < m) := by
  unfold slaCldjStatus
  split_ifs <;> norm_num <;> omega

lemma slaCldjStatus_eq_three (y m d : ℤ) :
    slaCldjStatus y m d = 3 ↔
      -4699 ≤ y ∧ 1 ≤ m ∧ m ≤ 12 ∧ (d < 1 ∨ monthLength y m < d) := by
  unfold slaCldjStatus
  split_ifs with h1 h2 h3 <;> norm_num <;> omega

/-- Claim C6: `sla_cldj` fails with `InvalidDate` distinguishing three
independently reported sub-kinds — bad year, bad month (not 1-12), bad day
(not valid for that year/month) — each error identifying which field is
wrong; in particular (2023, 13, 1) fails with the bad-month error. -/
theorem cldj_invalid_date_taxonomy :
    sla_cldj 2023 13 1 = CldjResult.badMonth 13 ∧
    (∀ y m d : ℤ, sla_cldj y m d = CldjResult.badYear y ↔ y < -4699) ∧
    (∀ y m d : ℤ, sla_cldj y m d = CldjResult.badMonth m ↔
      -4699 ≤ y ∧ (m < 1 ∨ 12 < m)) ∧
    (∀ y m d : ℤ, sla_cldj y m d = CldjResult.badDay d ↔
      -4699 ≤ y ∧ 1 ≤ m ∧ m ≤ 12 ∧ (d < 1 ∨ monthLength y m < d)) := by
  refine ⟨by decide, ?_, ?_, ?_⟩ <;>
    · intro y m d
      have e1 := slaCldjStatus_eq_one y m d
      have e2 := slaCldjStatus_eq_two y m d
      have e3 := slaCldjStatus_eq_three y m d
      simp only [sla_cldj]
      split_ifs with h1 h2 h3 <;> simp_all

/-- Claim C1 (code bug at lines 202-205): the wavelength guard of
`sla_amass` accepts `wave = 2000000` (the C condition `dec > wave >
1000000.` compares the boolean `dec > wave` against `1000000.` and so is
always false), and the error it does raise for `wave = -1` carries the
declination message, not a wavelength one. -/
theorem amass_wave_check_bug :
    amassError 0 0 0 0 2000000 = none ∧
    amassError 0 0 0 0 (-1) = some AmassErr.waveErr ∧
    AmassErr.msg AmassErr.waveErr = "sla.amass: declination out of range -90 to +90" := by
  refine ⟨by norm_num [amassError], by norm_num [amassError], rfl⟩

/-- Claim C4, counterexample: `ra = 24` passes the right-ascension check of
both operations (the code tests `ra < 0. || ra > 24.`), so `ra = 24` is not
rejected. -/
theorem ra_24_accepted :
    utc2tdbError 0 0 24 0 = none ∧ amassError 0 0 24 0 0.55 = none := by
  refine ⟨by norm_num [utc2tdbError], by norm_num [amassError]⟩

/-- Claim C4 (amended): with longitude and latitude in range, both
operations fail with the right-ascension `RangeError` exactly for
`ra < 0` or `ra > 24`; every `ra` in the closed interval [0, 24] —
including `ra = 24` — passes the check. -/
theorem ra_check_boundary (l la ra d w : ℝ)
    (hl1 : -360 ≤ l) (hl2 : l ≤ 360) (hla1 : -90 ≤ la) (hla2 : la ≤ 90) :
    (utc2tdbError l la ra d = some Utc2tdbErr.raErr ↔ ra < 0 ∨ 24 < ra) ∧
    (amassError l la ra d w = some AmassErr.raErr ↔ ra < 0 ∨ 24 < ra) := by
  have hl : ¬(l < -360 ∨ l > 360) := by push_neg; constructor <;> linarith
  have hla : ¬(la < -90 ∨ la > 90) := by push_neg; constructor <;> linarith
  constructor
  · simp only [utc2tdbError]
    rw [if_neg hl, if_neg hla]
    by_cases hra : ra < 0 ∨ ra > 24
    · rw [if_pos hra]; simpa using hra
    · rw [if_neg hra]
      constructor
      · intro hcontra
        split_ifs at hcontra
        simp_all
      · intro hcontra
        exact absurd hcontra hra
  · simp only [amassError]
    rw [if_neg hl, if_neg hla]
    by_cases hra : ra < 0 ∨ ra > 24
    · rw [if_pos hra]; simpa using hra
    · rw [if_neg hra]
      constructor
      · intro hcontra; split_ifs at hcontra <;> simp_all
      · intro hcontra; exact absurd hcontra hra

/-- Witness for `ra_check_boundary` at `ra = 25` with all other fields in
range. -/
theorem ra_check_boundary_witness :
    (utc2tdbError 0 0 25 0 = some Utc2tdbErr.raErr ↔ (25 : ℝ) < 0 ∨ (24 : ℝ) < 25) ∧
    (amassError 0 0 25 0 0.55 = some AmassErr.raErr ↔ (25 : ℝ) < 0 ∨ (24 : ℝ) < 25) :=
  ra_check_boundary 0 0 25 0 0.55 (by norm_num) (by norm_num) (by norm_num) (by norm_num)

/-- Claim C7: in both operations all input validation runs at the
operation boundary; whenever a check fails, the result is that error alone,
identical for every choice of the external computation chain — no part of
the transformation chain contributes to the outcome. -/
theorem validation_before_computation (Et : TdbExt) (Ea : AmassExt)
    (utc l la h ra d w pmra pmdec epoch parallax rv : ℝ) :
    (∀ e, utc2tdbError l la ra d = some e →
      sla_utc2tdb Et utc l la h ra d pmra pmdec epoch parallax rv = Except.error e) ∧
    (∀ e, amassError l la ra d w = some e →
      sla_amass Ea utc l la h ra d w pmra pmdec epoch parallax rv = Except.error e) := by
  constructor <;> intro e he <;> simp [sla_utc2tdb, sla_amass, he]

/-- Witness for `validation_before_computation`: longitude 400 is rejected
by both operations under the trivial externals. -/
theorem validation_before_computation_witness :
    sla_utc2tdb trivialTdbExt 0 400 0 0 0 0 0 0 2000 0 0 = Except.error Utc2tdbErr.lonErr ∧
    sla_amass trivialAmassExt 0 400 0 0 0 0 0.55 0 0 2000 0 0 = Except.error AmassErr.lonErr := by
  have h1 : utc2tdbError 400 0 0 0 = some Utc2tdbErr.lonErr := by norm_num [utc2tdbError]
  have h2 : amassError 400 0 0 0 0.55 = some AmassErr.lonErr := by norm_num [amassError]
  exact ⟨(validation_before_computation trivialTdbExt trivialAmassExt
      0 400 0 0 0 0 0.55 0 0 2000 0 0).1 _ h1,
    (validation_before_computation trivialTdbExt trivialAmassExt
      0 400 0 0 0 0 0.55 0 0 2000 0 0).2 _ h2⟩

/-- Claim C5: in `sla_utc2tdb` the light-time corrections are the dot
product of the target unit vector with the observatory position vector
relative to the heliocentre/barycentre, divided by the speed of light (and
by seconds-per-day to express them in days), and they are added to the
arrival time: `btdb = tdb + bcorr`, `htdb = tdb + hcorr`,
`hutc = utc + hcorr`. -/
theorem utc2tdb_light_time (E : TdbExt)
    (utc l la h ra d pmra pmdec epoch parallax rv : ℝ) :
    (utc2tdbCompute E utc l la h ra d pmra pmdec epoch parallax rv).btdb =
      (utc2tdbCompute E utc l la h ra d pmra pmdec epoch parallax rv).tdb +
        v3dot (utc2tdbCompute E utc l la h ra d pmra pmdec epoch parallax rv).targ
            (utc2tdbCompute E utc l la h ra d pmra pmdec epoch parallax rv).bpos /
          Constants.C / Constants.DAY ∧
    (utc2tdbCompute E utc l la h ra d pmra pmdec epoch parallax rv).htdb =
      (utc2tdbCompute E utc l la h ra d pmra pmdec epoch parallax rv).tdb +
        v3dot (utc2tdbCompute E utc l la h ra d pmra pmdec epoch parallax rv).targ
            (utc2tdbCompute E utc l la h ra d pmra pmdec epoch parallax rv).hpos /
          Constants.C / Constants.DAY ∧
    (utc2tdbCompute E utc l la h ra d pmra pmdec epoch parallax rv).hutc =
      utc +
        v3dot (utc2tdbCompute E utc l la h ra d pmra pmdec epoch parallax rv).targ
            (utc2tdbCompute E utc l la h ra d pmra pmdec epoch parallax rv).hpos /
          Constants.C / Constants.DAY :=
  ⟨rfl, rfl, rfl⟩

/-- Claim C9: on the success path of `sla_utc2tdb` (reached exactly when
validation passes), `tt = utc + slaDtt(utc)/86400`, and whenever the
TT-UTC offset is non-negative, `tt ≥ utc`. -/
theorem utc2tdb_tt_ordering (E : TdbExt)
    (utc l la h ra d pmra pmdec epoch parallax rv : ℝ) :
    (utc2tdbError l la ra d = none →
      sla_utc2tdb E utc l la h ra d pmra pmdec epoch parallax rv =
        Except.ok (utc2tdbCompute E utc l la h ra d pmra pmdec epoch parallax rv)) ∧
    (utc2tdbCompute E utc l la h ra d pmra pmdec epoch parallax rv).tt =
      utc + E.slaDtt utc / Constants.DAY ∧
    (0 ≤ E.slaDtt utc →
      utc ≤ (utc2tdbCompute E utc l la h ra d pmra pmdec epoch parallax rv).tt) := by
  refine ⟨fun hnone => by simp [sla_utc2tdb, hnone], rfl, fun hd => ?_⟩
  have htt : (utc2tdbCompute E utc l la h ra d pmra pmdec epoch parallax rv).tt =
      utc + E.slaDtt utc / Constants.DAY := rfl
  have hdiv : 0 ≤ E.slaDtt utc / Constants.DAY := by
    apply div_nonneg hd
    norm_num [Constants.DAY]
  rw [htt]
  linarith

/-- Witness for `utc2tdb_tt_ordering` with a 64-second offset at a valid
input. -/
theorem utc2tdb_tt_ordering_witness :
    utc2tdbError 0 0 0 0 = none ∧
    0 ≤ dttPosExt.slaDtt 51544 ∧
    sla_utc2tdb dttPosExt 51544 0 0 0 0 0 0 0 2000 0 0 =
      Except.ok (utc2tdbCompute dttPosExt 51544 0 0 0 0 0 0 0 2000 0 0) ∧
    (51544 : ℝ) ≤ (utc2tdbCompute dttPosExt 51544 0 0 0 0 0 0 0 2000 0 0).tt := by
  have hnone : utc2tdbError 0 0 0 0 = none := by norm_num [utc2tdbError]
  have hd : (0 : ℝ) ≤ dttPosExt.slaDtt 51544 := by norm_num [dttPosExt]
  exact ⟨hnone, hd,
    (utc2tdb_tt_ordering dttPosExt 51544 0 0 0 0 0 0 0 2000 0 0).1 hnone,
    (utc2tdb_tt_ordering dttPosExt 51544 0 0 0 0 0 0 0 2000 0 0).2.2 hd⟩

/-- Claim C8: the refraction displacement reported by `sla_amass` equals
`tan(z)*(refa + refb*tan^2(z))` converted to degrees, where `z` is the
observed zenith distance returned by `slaI2o` and `(refa, refb)` are the
coefficients from `slaRefcoq` at the fixed temperature, pressure and
humidity and the requested wavelength. -/
theorem amass_refraction_formula (E : AmassExt)
    (utc l la h ra d w pmra pmdec epoch parallax rv : ℝ) :
    (amassCompute E utc l la h ra d w pmra pmdec epoch parallax rv).delz =
      Real.tan (amassCompute E utc l la h ra d w pmra pmdec epoch parallax rv).zdob *
        ((amassCompute E utc l la h ra d w pmra pmdec epoch parallax rv).refa +
          (amassCompute E utc l la h ra d w pmra pmdec epoch parallax rv).refb *
            Real.tan (amassCompute E utc l la h ra d w pmra pmdec epoch parallax rv).zdob *
            Real.tan (amassCompute E utc l la h ra d w pmra pmdec epoch parallax rv).zdob) / CFAC ∧
    ((amassCompute E utc l la h ra d w pmra pmdec epoch parallax rv).refa,
      (amassCompute E utc l la h ra d w pmra pmdec epoch parallax rv).refb) =
        E.slaRefcoq 285 1013.25 0.2 w ∧
    (amassCompute E utc l la h ra d w pmra pmdec epoch parallax rv).zdob =
      (E.slaI2o
        (E.slaPm (CFAC * 15 * ra) (CFAC * d) (CFAC * pmra / 3600) (CFAC * pmdec / 3600)
          parallax rv epoch (E.slaEpj utc)).1
        (E.slaPm (CFAC * 15 * ra) (CFAC * d) (CFAC * pmra / 3600) (CFAC * pmdec / 3600)
          parallax rv epoch (E.slaEpj utc)).2
        utc 0 (CFAC * l) (CFAC * la) h 0 0 285 1013.25 0.2 w 0.0065).zdob :=
  ⟨rfl, rfl, rfl⟩

/-- Claim C10: `sla_amass` consults its atmospheric externals only at the
fixed conditions of lines 221-227 — `slaI2o` at `DUT = XP = YP = 0`,
`T = 285`, `P = 1013.25`, `RH = 0.2`, `TLR = 0.0065` and `slaRefcoq` at
`(285, 1013.25, 0.2, wave)` — so two external chains agreeing there give
identical results for the operation's twelve arguments, and nothing in the
argument list can override the fixed conditions. -/
theorem amass_fixed_atmosphere (E E2 : AmassExt)
    (utc l la h ra d w pmra pmdec epoch parallax rv : ℝ)
    (hEpj : ∀ x, E.slaEpj x = E2.slaEpj x)
    (hPm : ∀ a b c d2 e f g h2, E.slaPm a b c d2 e f g h2 = E2.slaPm a b c d2 e f g h2)
    (hI2o : ∀ a b c e f g w2,
      E.slaI2o a b c 0 e f g 0 0 285 1013.25 0.2 w2 0.0065 =
        E2.slaI2o a b c 0 e f g 0 0 285 1013.25 0.2 w2 0.0065)
    (hRef : ∀ w2, E.slaRefcoq 285 1013.25 0.2 w2 = E2.slaRefcoq 285 1013.25 0.2 w2)
    (hAir : ∀ z, E.slaAirmas z = E2.slaAirmas z) :
    sla_amass E utc l la h ra d w pmra pmdec epoch parallax rv =
      sla_amass E2 utc l la h ra d w pmra pmdec epoch parallax rv := by
  unfold sla_amass
  cases amassError l la ra d w with
  | some e => rfl
  | none =>
    simp only [amassCompute, hEpj, hPm, hI2o, hRef, hAir]

/-- Witness for `amass_fixed_atmosphere` with the trivial externals on both
sides. -/
theorem amass_fixed_atmosphere_witness :
    sla_amass trivialAmassExt 0 0 0 0 0 0 0.55 0 0 2000 0 0 =
      sla_amass trivialAmassExt 0 0 0 0 0 0 0.55 0 0 2000 0 0 :=
  amass_fixed_atmosphere trivialAmassExt trivialAmassExt 0 0 0 0 0 0 0.55 0 0 2000 0 0
    (fun _ => rfl) (fun _ _ _ _ _ _ _ _ => rfl) (fun _ _ _ _ _ _ _ => rfl)
    (fun _ => rfl) (fun _ => rfl)

/-! ## Parallactic-angle helper lemmas -/

lemma CFAC_pos : 0 < CFAC := by
  unfold CFAC Constants.PI
  positivity

lemma pi_div_CFAC : Real.pi / CFAC = 180 := by
  unfold CFAC Constants.PI
  field_simp

lemma neg_pi_div_CFAC : -Real.pi / CFAC = -180 := by
  unfold CFAC Constants.PI
  field_simp
  ring

/-- The value of lines 247-248 always lies in (0, 360]. -/
lemma amassPaOut_range (ha dec phi : ℝ) :
    0 < amassPaOut ha dec phi ∧ amassPaOut ha dec phi ≤ 360 := by
  have hpa1 : -Real.pi < slaPa ha dec phi := Complex.neg_pi_lt_arg _
  have hpa2 : slaPa ha dec phi ≤ Real.pi := Complex.arg_le_pi _
  have hc : 0 < CFAC := CFAC_pos
  have hub : slaPa ha dec phi / CFAC ≤ 180 := by
    have h1 : slaPa ha dec phi / CFAC ≤ Real.pi / CFAC := by gcongr
    rw [pi_div_CFAC] at h1
    exact h1
  have hlb : -180 < slaPa ha dec phi / CFAC := by
    have h1 : -Real.pi / CFAC < slaPa ha dec phi / CFAC := by gcongr
    rw [neg_pi_div_CFAC] at h1
    exact h1
  unfold amassPaOut paNorm
  split_ifs with hpos
  · exact ⟨hpos, by linarith⟩
  · push_neg at hpos
    exact ⟨by linarith, by linarith⟩

/-- With zero declination, the parallactic angle argument collapses. -/
lemma slaPa_dec_zero (ha phi : ℝ) :
    slaPa ha 0 phi = Complex.arg ⟨Real.sin phi, Real.cos phi * Real.sin ha⟩ := by
  unfold slaPa
  norm_num

/-- Claim C2 (amended): for every choice of the external chain and every
input, the parallactic angle reported by `sla_amass` lies in the half-open
interval (0, 360]: it is strictly positive and at most 360. -/
theorem amass_pa_range (E : AmassExt)
    (utc l la h ra d w pmra pmdec epoch parallax rv : ℝ) :
    0 < (amassCompute E utc l la h ra d w pmra pmdec epoch parallax rv).paob ∧
    (amassCompute E utc l la h ra d w pmra pmdec epoch parallax rv).paob ≤ 360 :=
  amassPaOut_range _ _ _

/-- Claim C2, counterexample: when the topocentric transform reports an
observed hour angle of 0 at declination 0 from latitude 45 degrees, the
parallactic angle is 0 and line 248 turns it into exactly 360. -/
theorem amass_pa_360_example :
    (amassCompute trivialAmassExt 0 0 45 0 0 0 0.55 0 0 2000 0 0).paob = 360 := by
  have h0 : (amassCompute trivialAmassExt 0 0 45 0 0 0 0.55 0 0 2000 0 0).paob =
      amassPaOut (0 * (24 / Constants.TWOPI)) (CFAC * 0) (CFAC * 45) := rfl
  have h45 : CFAC * 45 = Real.pi / 4 := by
    unfold CFAC Constants.PI
    ring
  rw [h0, zero_mul, mul_zero, h45]
  have hsin : (0 : ℝ) ≤ Real.sin (Real.pi / 4) := by
    rw [Real.sin_pi_div_four]
    positivity
  have hpa : slaPa 0 0 (Real.pi / 4) = 0 := by
    rw [slaPa_dec_zero]
    apply Complex.arg_eq_zero_iff.mpr
    constructor
    · simpa using hsin
    · simp
  unfold amassPaOut paNorm
  rw [hpa, zero_div]
  norm_num

/-- The spec-side value: at observed hour angle pi/2 rad, declination 0 and
latitude pi/4, `slaPa` gives pi/4. -/
lemma slaPa_pi_half : slaPa (Real.pi / 2) 0 (Real.pi / 4) = Real.pi / 4 := by
  rw [slaPa_dec_zero]
  have key : (⟨Real.sin (Real.pi / 4), Real.cos (Real.pi / 4) * Real.sin (Real.pi / 2)⟩ : ℂ) =
      Complex.cos (Complex.ofReal (Real.pi / 4)) +
        Complex.sin (Complex.ofReal (Real.pi / 4)) * Complex.I := by
    apply Complex.ext
    · rw [Complex.add_re, Complex.cos_ofReal_re, Complex.mul_I_re, Complex.sin_ofReal_im]
      show Real.sin (Real.pi / 4) = Real.cos (Real.pi / 4) + -0
      rw [Real.sin_pi_div_four, Real.cos_pi_div_four]
      ring
    · rw [Complex.add_im, Complex.cos_ofReal_im, Complex.mul_I_im, Complex.sin_ofReal_re]
      show Real.cos (Real.pi / 4) * Real.sin (Real.pi / 2) = 0 + Real.sin (Real.pi / 4)
      rw [Real.sin_pi_div_two, Real.sin_pi_div_four, Real.cos_pi_div_four]
      ring
  rw [key]
  apply Complex.arg_cos_add_sin_mul_I
  constructor
  · linarith [Real.pi_pos]
  · linarith [Real.pi_pos]

lemma sin_six_neg : Real.sin 6 < 0 := by
  have h1 : Real.sin 6 = Real.sin (6 - 2 * Real.pi) := (Real.sin_sub_two_pi 6).symm
  rw [h1]
  apply Real.sin_neg_of_neg_of_neg_pi_lt
  · nlinarith [Real.pi_gt_three]
  · nlinarith [Real.pi_lt_four]

/-- What line 247 actually feeds to `slaPa` when the observed hour angle is
pi/2 rad: the value 6 (hours), whose parallactic angle is non-positive. -/
lemma slaPa_six_nonpos : slaPa 6 0 (Real.pi / 4) ≤ 0 := by
  rw [slaPa_dec_zero]
  have hre : (0 : ℝ) ≤ (⟨Real.sin (Real.pi / 4), Real.cos (Real.pi / 4) * Real.sin 6⟩ : ℂ).re := by
    show (0 : ℝ) ≤ Real.sin (Real.pi / 4)
    rw [Real.sin_pi_div_four]
    positivity
  rw [Complex.arg_of_re_nonneg hre]
  apply Real.arcsin_nonpos.mpr
  apply div_nonpos_iff.mpr
  apply Or.inr
  constructor
  · show Real.cos (Real.pi / 4) * Real.sin 6 ≤ 0
    have hc : 0 < Real.cos (Real.pi / 4) := by
      rw [Real.cos_pi_div_four]
      positivity
    nlinarith [sin_six_neg]
  · exact Complex.abs.nonneg _

lemma slaPa_six_lb : -(Real.pi / 2) ≤ slaPa 6 0 (Real.pi / 4) := by
  rw [slaPa_dec_zero]
  have hre : (0 : ℝ) ≤ (⟨Real.sin (Real.pi / 4), Real.cos (Real.pi / 4) * Real.sin 6⟩ : ℂ).re := by
    show (0 : ℝ) ≤ Real.sin (Real.pi / 4)
    rw [Real.sin_pi_div_four]
    positivity
  rw [Complex.arg_of_re_nonneg hre]
  exact Real.neg_pi_div_two_le_arcsin _

/-- Claim C3 (code bug at lines 241 and 247): `sla_amass` converts the
observed hour angle to hours before passing it to `slaPa`, which expects
radians.  With the topocentric transform reporting an observed hour angle
of pi/2 rad at declination 0 and latitude 45 degrees, the reported
parallactic angle (at least 270 degrees) differs from the
spec-side value `slaPa(pi/2, 0, pi/4)` in degrees, which is 45. -/
theorem amass_pa_unit_bug :
    (amassCompute haPiHalfExt 0 0 45 0 0 0 0.55 0 0 2000 0 0).paob ≠
      amassPaOut (Real.pi / 2) 0 (Real.pi / 4) := by
  have hcode : (amassCompute haPiHalfExt 0 0 45 0 0 0 0.55 0 0 2000 0 0).paob =
      amassPaOut (Real.pi / 2 * (24 / Constants.TWOPI)) (CFAC * 0) (CFAC * 45) := rfl
  have h6 : Real.pi / 2 * (24 / Constants.TWOPI) = 6 := by
    unfold Constants.TWOPI
    field_simp
    ring
  have h45 : CFAC * 45 = Real.pi / 4 := by
    unfold CFAC Constants.PI
    ring
  have hRHS : amassPaOut (Real.pi / 2) 0 (Real.pi / 4) = 45 := by
    unfold amassPaOut
    rw [slaPa_pi_half]
    have hdiv : Real.pi / 4 / CFAC = 45 := by
      unfold CFAC Constants.PI
      field_simp
      ring
    rw [hdiv]
    unfold paNorm
    norm_num
  have hLHS : 270 ≤ amassPaOut 6 0 (Real.pi / 4) := by
    unfold amassPaOut
    have hc : 0 < CFAC := CFAC_pos
    have hx1 : slaPa 6 0 (Real.pi / 4) / CFAC ≤ 0 :=
      div_nonpos_iff.mpr (Or.inr ⟨slaPa_six_nonpos, hc.le⟩)
    have hx2 : -90 ≤ slaPa 6 0 (Real.pi / 4) / CFAC := by
      have hdiv : -(Real.pi / 2) / CFAC ≤ slaPa 6 0 (Real.pi / 4) / CFAC := by
        gcongr
        exact slaPa_six_lb
      have hval : -(Real.pi / 2) / CFAC = -90 := by
        unfold CFAC Constants.PI
        field_simp
        ring
      linarith
    unfold paNorm
    split_ifs with hpos
    · linarith
    · linarith
  rw [hcode, h6, mul_zero, h45, hRHS]
  intro heq
  rw [heq] at hLHS
  norm_num at hLHS
